import Mathlib

/-!
Shallow embedding of the `ccm_geologic_time` repository:
`jupyter_notebooks/henrys_law.py` and `jupyter_notebooks/rubiscos.py`.
Real-valued arithmetic models the Python float arithmetic; `Real.exp`
models `np.exp`.  Python's optional `temp=None` argument together with the
falsy fallback `temp or default` is modelled by `Option ℝ` and
`orElseFalsy`: an omitted argument is `none`, and a supplied value equal
to `0` also falls back to the default, exactly as `0.0 or default`
evaluates to `default` in Python.
-/

noncomputable section

/-- Python's `x or default` applied to an optional float `x`: the default is
used when the argument is omitted (`None`) or falsy (`== 0`). -/
def orElseFalsy (t : Option ℝ) (dft : ℝ) : ℝ :=
  match t with
  | none => dft
  | some x => if x = 0 then dft else x

/-- `class HenrysLaw` from `henrys_law.py`: `_ref_h_cp`, `_t_dep`,
`ref_temp`, `name`. -/
structure HenrysLaw where
  ref_h_cp : ℝ
  t_dep : ℝ
  ref_temp : ℝ
  name : Option String

/-- `HenrysLaw.h_cp(self, temp=None)`: `_t = temp or self.ref_temp`;
`temp_term = (1.0/_t) - (1.0/self.ref_temp)`;
returns `self._ref_h_cp * np.exp(self._t_dep * temp_term)`. -/
def HenrysLaw.h_cp (m : HenrysLaw) (temp : Option ℝ) : ℝ :=
  let t := orElseFalsy temp m.ref_temp
  m.ref_h_cp * Real.exp (m.t_dep * ((1 / t) - (1 / m.ref_temp)))

/-- `HenrysLaw.molar_conc(self, p, temp=None)`:
`conc = p * self.h_cp(temp)` (mol/m^3), returns `1e-3 * conc` (mol/L). -/
def HenrysLaw.molar_conc (m : HenrysLaw) (p : ℝ) (temp : Option ℝ) : ℝ :=
  1e-3 * (p * m.h_cp temp)

/-- `_REF_T = 298.15` from both modules. -/
def _REF_T : ℝ := 298.15

/-- `O2_SOL = HenrysLaw(1.2e-5, 1700, _REF_T, name='O2')`. -/
def O2_SOL : HenrysLaw := ⟨1.2e-5, 1700, _REF_T, some "O2"⟩

/-- `CO2_SOL = HenrysLaw(3.3e-4, 2400, _REF_T, name='CO2')`. -/
def CO2_SOL : HenrysLaw := ⟨3.3e-4, 2400, _REF_T, some "CO2"⟩

/-- The default of the `mw` keyword argument of both `RuBisCOParams.__init__`
and `ArrheniusRubisco.__init__`: `mw=65e3` g/mol per active site. -/
def default_mw : ℝ := 65e3

/-- `class RuBisCOParams` from `rubiscos.py`: the five stored inputs plus the
construction-time derived `kcat_O`. -/
structure RuBisCOParams where
  kcat_C : ℝ
  K_C : ℝ
  K_O : ℝ
  S : ℝ
  kcat_O : ℝ
  name : Option String
  mw : ℝ

/-- `RuBisCOParams.__init__(self, kcat_C, K_C, K_O, S, name=None, mw=65e3)`:
stores the inputs and derives `self.kcat_O = kcat_C * K_O / (K_C * S)`. -/
def RuBisCOParams.make (kcat_C K_C K_O S : ℝ) (name : Option String)
    (mw : ℝ) : RuBisCOParams :=
  ⟨kcat_C, K_C, K_O, S, kcat_C * K_O / (K_C * S), name, mw⟩

/-- `RuBisCOParams.__init__` with the `mw` keyword argument omitted, so the
default `mw=65e3` applies. -/
def RuBisCOParams.makeDefault (kcat_C K_C K_O S : ℝ)
    (name : Option String) : RuBisCOParams :=
  RuBisCOParams.make kcat_C K_C K_O S name default_mw

/-- `RuBisCOParams.vs(self, co2, o2)`:
`vc = kcat_C / (1.0 + K_C/co2 + K_C*o2/(K_O*co2))`,
`vo = kcat_O / (1.0 + K_O/o2 + K_O*co2/(K_C*o2))`, returns `(vc, vo)`. -/
def RuBisCOParams.vs (m : RuBisCOParams) (co2 o2 : ℝ) : ℝ × ℝ :=
  (m.kcat_C / (1 + (m.K_C / co2) + (m.K_C * o2 / (m.K_O * co2))),
   m.kcat_O / (1 + (m.K_O / o2) + (m.K_O * co2 / (m.K_C * o2))))

/-- `RuBisCOParams.net_vc(self, co2, o2)`: `vc, vo = self.vs(co2, o2)`;
returns `vc - vo/2`. -/
def RuBisCOParams.net_vc (m : RuBisCOParams) (co2 o2 : ℝ) : ℝ :=
  (m.vs co2 o2).1 - (m.vs co2 o2).2 / 2

/-- `PCC7942 = RuBisCOParams(kcat_C=14.4, K_C=172, K_O=585, S=43,
name='PCC7942')`. -/
def PCC7942 : RuBisCOParams :=
  RuBisCOParams.makeDefault 14.4 172 585 43 (some "PCC7942")

/-- `RUBRUM = RuBisCOParams(kcat_C=7.3, K_C=80, K_O=406, S=12.3,
name='Rubrum', mw=52e3)`. -/
def RUBRUM : RuBisCOParams :=
  RuBisCOParams.make 7.3 80 406 12.3 (some "Rubrum") 52e3

/-- `SPINACH = RuBisCOParams(kcat_C=3.7, K_C=14, K_O=480, S=80,
name='Spinach')`. -/
def SPINACH : RuBisCOParams :=
  RuBisCOParams.makeDefault 3.7 14 480 80 (some "Spinach")

/-- `MAIZE = RuBisCOParams(kcat_C=4.4, K_C=34, K_O=810, S=78,
name='Maize')`. -/
def MAIZE : RuBisCOParams :=
  RuBisCOParams.makeDefault 4.4 34 810 78 (some "Maize")

/-- `TOBACCO = RuBisCOParams(kcat_C=3.4, K_C=10.7, K_O=295, S=82,
name='Tobacco')`. -/
def TOBACCO : RuBisCOParams :=
  RuBisCOParams.makeDefault 3.4 10.7 295 82 (some "Tobacco")

/-- `_R = 8.314e-3`, the universal gas constant in kJ/mol/K. -/
def _R : ℝ := 8.314e-3

/-- `class ArrheniusParam`: `ref_value`, `ref_temp`, `e_act`. -/
structure ArrheniusParam where
  ref_value : ℝ
  ref_temp : ℝ
  e_act : ℝ

/-- `ArrheniusParam.value(self, temp=None)`: `my_temp = temp or self.ref_temp`;
returns `ref_value * np.exp((-e_act/(_R*my_temp)) * (ref_temp - my_temp) /
ref_temp)`. -/
def ArrheniusParam.value (p : ArrheniusParam) (temp : Option ℝ) : ℝ :=
  let my_temp := orElseFalsy temp p.ref_temp
  p.ref_value *
    Real.exp ((-p.e_act / (_R * my_temp)) * (p.ref_temp - my_temp) / p.ref_temp)

/-- `class ArrheniusRubisco`: four `ArrheniusParam` fields, resolved
`ref_temp`, `name`, `mw`. -/
structure ArrheniusRubisco where
  kcat_C : ArrheniusParam
  K_C : ArrheniusParam
  K_O : ArrheniusParam
  S : ArrheniusParam
  ref_temp : ℝ
  name : Option String
  mw : ℝ

/-- `ArrheniusRubisco.__init__(self, kcat_C, K_C, K_O, S, ref_temp=None,
name=None, mw=65e3)`: stores the parameters and
`self.ref_temp = ref_temp or 298.15`. -/
def ArrheniusRubisco.make (kcat_C K_C K_O S : ArrheniusParam)
    (ref_temp : Option ℝ) (name : Option String) (mw : ℝ) : ArrheniusRubisco :=
  ⟨kcat_C, K_C, K_O, S, orElseFalsy ref_temp 298.15, name, mw⟩

/-- `ArrheniusRubisco.__init__` with the `mw` keyword argument omitted, so
the default `mw=65e3` applies. -/
def ArrheniusRubisco.makeDefault (kcat_C K_C K_O S : ArrheniusParam)
    (ref_temp : Option ℝ) (name : Option String) : ArrheniusRubisco :=
  ArrheniusRubisco.make kcat_C K_C K_O S ref_temp name default_mw

/-- `ArrheniusRubisco.concrete_temp(self, temp)`: evaluates the four
Arrhenius parameters at `temp`, converts `K_C` and `K_O` from Pa to µM via
`CO2_SOL.molar_conc(K_C, temp) * 1e6` and `O2_SOL.molar_conc(K_O, temp) * 1e6`,
rescales `S` by `O2_SOL.h_cp(temp) / CO2_SOL.h_cp(temp)`, and constructs a
`RuBisCOParams` with the same `name` and `mw`. -/
def ArrheniusRubisco.concrete_temp (m : ArrheniusRubisco) (temp : ℝ) :
    RuBisCOParams :=
  let kcat_C := m.kcat_C.value (some temp)
  let K_C := m.K_C.value (some temp)
  let K_O := m.K_O.value (some temp)
  let S := m.S.value (some temp)
  let K_C_umolar := CO2_SOL.molar_conc K_C (some temp) * 1e6
  let K_O_umolar := O2_SOL.molar_conc K_O (some temp) * 1e6
  let S_sol := S * (O2_SOL.h_cp (some temp) / CO2_SOL.h_cp (some temp))
  RuBisCOParams.make kcat_C K_C_umolar K_O_umolar S_sol m.name m.mw

/-- `ArrheniusRubisco.vs(self, co2, o2, temp=None)`:
`temp = temp or self.ref_temp`; `rps = self.concrete_temp(temp)`;
returns `rps.vs(co2, o2)`. -/
def ArrheniusRubisco.vs (m : ArrheniusRubisco) (co2 o2 : ℝ)
    (temp : Option ℝ) : ℝ × ℝ :=
  (m.concrete_temp (orElseFalsy temp m.ref_temp)).vs co2 o2

/-- `ArrheniusRubisco.net_vc(self, co2, o2, temp=None)`:
`temp = temp or self.ref_temp`; `rps = self.concrete_temp(temp)`;
returns `rps.net_vc(co2, o2)`. -/
def ArrheniusRubisco.net_vc (m : ArrheniusRubisco) (co2 o2 : ℝ)
    (temp : Option ℝ) : ℝ :=
  (m.concrete_temp (orElseFalsy temp m.ref_temp)).net_vc co2 o2

/-- `ATHALIANA_T = ArrheniusRubisco(kcat_C=ArrheniusParam(3.1, _REF_T, 59.6),
K_C=ArrheniusParam(36, _REF_T, 63.0), K_O=ArrheniusParam(23100, _REF_T, 16.9),
S=ArrheniusParam(2003, _REF_T, -28.7), ref_temp=_REF_T, name='A. thaliana')`. -/
def ATHALIANA_T : ArrheniusRubisco :=
  ArrheniusRubisco.makeDefault ⟨3.1, _REF_T, 59.6⟩ ⟨36, _REF_T, 63.0⟩
    ⟨23100, _REF_T, 16.9⟩ ⟨2003, _REF_T, -28.7⟩ (some _REF_T)
    (some "A. thaliana")

/-- C3: for every Henry solubility model with positive reference temperature,
an explicitly supplied positive temperature yields the documented exponential
formula, an omitted temperature is replaced by the reference temperature, and
at the reference temperature the coefficient is exactly the reference
coefficient. -/
theorem C3_h_cp (m : HenrysLaw) (h : 0 < m.ref_temp) :
    (∀ t : ℝ, 0 < t →
      m.h_cp (some t) =
        m.ref_h_cp * Real.exp (m.t_dep * (1 / t - 1 / m.ref_temp)))
    ∧ m.h_cp none = m.h_cp (some m.ref_temp)
    ∧ m.h_cp (some m.ref_temp) = m.ref_h_cp := by
  refine ⟨fun t ht => ?_, ?_, ?_⟩
  · simp [HenrysLaw.h_cp, orElseFalsy, ht.ne']
  · simp [HenrysLaw.h_cp, orElseFalsy, h.ne']
  · simp [HenrysLaw.h_cp, orElseFalsy, h.ne']

theorem C3_h_cp_witness :
    (0 : ℝ) < CO2_SOL.ref_temp
    ∧ CO2_SOL.h_cp (some CO2_SOL.ref_temp) = CO2_SOL.ref_h_cp :=
  ⟨by norm_num [CO2_SOL, _REF_T],
    (C3_h_cp CO2_SOL (by norm_num [CO2_SOL, _REF_T])).2.2⟩

/-- C4: for every Arrhenius-scaled parameter with positive reference
temperature, an explicitly supplied positive temperature yields the documented
Arrhenius formula with gas constant `_R = 8.314e-3`, an omitted temperature is
replaced by the parameter's reference temperature, and at the reference
temperature the value is exactly the reference value. -/
theorem C4_arrhenius_value (p : ArrheniusParam) (h : 0 < p.ref_temp) :
    (∀ t : ℝ, 0 < t →
      p.value (some t) =
        p.ref_value *
          Real.exp (-p.e_act / (_R * t) * (p.ref_temp - t) / p.ref_temp))
    ∧ p.value none = p.value (some p.ref_temp)
    ∧ p.value (some p.ref_temp) = p.ref_value := by
  refine ⟨fun t ht => ?_, ?_, ?_⟩
  · simp [ArrheniusParam.value, orElseFalsy, ht.ne']
  · simp [ArrheniusParam.value, orElseFalsy, h.ne']
  · simp [ArrheniusParam.value, orElseFalsy, h.ne']

theorem C4_arrhenius_value_witness :
    (0 : ℝ) < (ArrheniusParam.mk 3.1 298.15 59.6).ref_temp
    ∧ (ArrheniusParam.mk 3.1 298.15 59.6).value
        (some (ArrheniusParam.mk 3.1 298.15 59.6).ref_temp) =
      (ArrheniusParam.mk 3.1 298.15 59.6).ref_value :=
  ⟨by norm_num,
    (C4_arrhenius_value (ArrheniusParam.mk 3.1 298.15 59.6) (by norm_num)).2.2⟩

/-- C2: for every fixed-parameter model and nonzero concentrations, `vs`
returns exactly the pair of competitive Michaelis-Menten rates of the spec,
and `net_vc` returns the carboxylation rate minus half the oxygenation
rate. -/
theorem C2_rates (m : RuBisCOParams) (co2 o2 : ℝ)
    (h₁ : co2 ≠ 0) (h₂ : o2 ≠ 0) :
    m.vs co2 o2 =
      (m.kcat_C / (1 + m.K_C / co2 + m.K_C * o2 / (m.K_O * co2)),
       m.kcat_O / (1 + m.K_O / o2 + m.K_O * co2 / (m.K_C * o2)))
    ∧ m.net_vc co2 o2 = (m.vs co2 o2).1 - (m.vs co2 o2).2 / 2 :=
  ⟨rfl, rfl⟩

theorem C2_rates_witness :
    (200 : ℝ) ≠ 0
    ∧ PCC7942.net_vc 200 200 =
        (PCC7942.vs 200 200).1 - (PCC7942.vs 200 200).2 / 2 :=
  ⟨by norm_num, (C2_rates PCC7942 200 200 (by norm_num) (by norm_num)).2⟩

/-- C8: for every Henry solubility model, partial pressure and temperature
argument, `molar_conc` is `1e-3 * p * h_cp(t)`; in particular the CO2 constant
gives `molar_conc(1.0, 298.15) = 3.3e-7` mol/L and
`h_cp(298.15) = 3.3e-4`. -/
theorem C8_molar_conc :
    (∀ (m : HenrysLaw) (p : ℝ) (t : Option ℝ),
      m.molar_conc p t = 1e-3 * p * m.h_cp t)
    ∧ CO2_SOL.molar_conc 1 (some 298.15) = 3.3e-7
    ∧ CO2_SOL.h_cp (some 298.15) = 3.3e-4 := by
  refine ⟨fun m p t => by rw [HenrysLaw.molar_conc]; ring, ?_, ?_⟩
  · norm_num [HenrysLaw.molar_conc, HenrysLaw.h_cp, orElseFalsy, CO2_SOL,
      _REF_T]
  · norm_num [HenrysLaw.h_cp, orElseFalsy, CO2_SOL, _REF_T]

/-- C1: for every temperature-dependent model and positive temperature,
`concrete_temp` returns the fixed-parameter model whose `kcat_C` is the raw
Arrhenius value, whose `K_C` and `K_O` are the Pa-to-µM conversions through
the matching solubility constants scaled by `1e6`, and whose `S` is rescaled
by the O2/CO2 solubility-coefficient ratio; in particular the A. thaliana
instance at 298.15 K has `kcat_C = 3.1`. -/
theorem C1_concrete_temp (m : ArrheniusRubisco) (t : ℝ) (h : 0 < t) :
    (m.concrete_temp t).kcat_C = m.kcat_C.value (some t)
    ∧ (m.concrete_temp t).K_C =
        CO2_SOL.molar_conc (m.K_C.value (some t)) (some t) * 1e6
    ∧ (m.concrete_temp t).K_O =
        O2_SOL.molar_conc (m.K_O.value (some t)) (some t) * 1e6
    ∧ (m.concrete_temp t).S =
        m.S.value (some t) * (O2_SOL.h_cp (some t) / CO2_SOL.h_cp (some t))
    ∧ (ATHALIANA_T.concrete_temp 298.15).kcat_C = 3.1 := by
  refine ⟨rfl, rfl, rfl, rfl, ?_⟩
  show ATHALIANA_T.kcat_C.value (some 298.15) = 3.1
  norm_num [ATHALIANA_T, ArrheniusRubisco.makeDefault, ArrheniusRubisco.make,
    ArrheniusParam.value, orElseFalsy, _REF_T]

theorem C1_concrete_temp_witness :
    (0 : ℝ) < 298.15 ∧ (ATHALIANA_T.concrete_temp 298.15).kcat_C = 3.1 :=
  ⟨by norm_num, (C1_concrete_temp ATHALIANA_T 298.15 (by norm_num)).2.2.2.2⟩

/-- C5: the temperature-dependent `vs` and `net_vc` delegate to
`concrete_temp` at the resolved temperature: the supplied temperature when it
is nonzero, and the model's reference temperature when the argument is
omitted or is an explicit zero (the falsy fallback). -/
theorem C5_delegation (m : ArrheniusRubisco) (co2 o2 : ℝ) :
    (∀ t : ℝ, t ≠ 0 →
      m.vs co2 o2 (some t) = (m.concrete_temp t).vs co2 o2
      ∧ m.net_vc co2 o2 (some t) = (m.concrete_temp t).net_vc co2 o2)
    ∧ (m.vs co2 o2 none = (m.concrete_temp m.ref_temp).vs co2 o2
      ∧ m.net_vc co2 o2 none = (m.concrete_temp m.ref_temp).net_vc co2 o2)
    ∧ (m.vs co2 o2 (some 0) = (m.concrete_temp m.ref_temp).vs co2 o2
      ∧ m.net_vc co2 o2 (some 0) =
          (m.concrete_temp m.ref_temp).net_vc co2 o2) := by
  refine ⟨fun t ht => ⟨?_, ?_⟩, ⟨rfl, rfl⟩, ⟨?_, ?_⟩⟩
  · simp [ArrheniusRubisco.vs, orElseFalsy, ht]
  · simp [ArrheniusRubisco.net_vc, orElseFalsy, ht]
  · simp [ArrheniusRubisco.vs, orElseFalsy]
  · simp [ArrheniusRubisco.net_vc, orElseFalsy]

theorem C5_delegation_witness :
    (310 : ℝ) ≠ 0
    ∧ ATHALIANA_T.net_vc 200 200 (some 310) =
        (ATHALIANA_T.concrete_temp 310).net_vc 200 200 :=
  ⟨by norm_num, ((C5_delegation ATHALIANA_T 200 200).1 310 (by norm_num)).2⟩

/-- C7 as stated fails when `kcat_C = 0`: the instance built from
`kcat_C = 0, K_C = 1, K_O = 1, S = 5` has nonzero `K_C`, `K_O` and `S`, yet
reconstructing the specificity from the stored fields yields `0`, not the
supplied `5`. -/
theorem C7_counterexample :
    (RuBisCOParams.make 0 1 1 5 none 65000).K_C ≠ 0
    ∧ (RuBisCOParams.make 0 1 1 5 none 65000).K_O ≠ 0
    ∧ (RuBisCOParams.make 0 1 1 5 none 65000).S ≠ 0
    ∧ ¬((RuBisCOParams.make 0 1 1 5 none 65000).kcat_C *
          (RuBisCOParams.make 0 1 1 5 none 65000).K_O /
          ((RuBisCOParams.make 0 1 1 5 none 65000).kcat_O *
            (RuBisCOParams.make 0 1 1 5 none 65000).K_C) =
        (RuBisCOParams.make 0 1 1 5 none 65000).S) := by
  norm_num [RuBisCOParams.make]

/-- C7 (amended): construction derives
`kcat_O = kcat_C * K_O / (K_C * S)`, and for every instance with nonzero
`kcat_C`, `K_C`, `K_O` and `S`, reconstructing the specificity from the
stored fields as `kcat_C * K_O / (kcat_O * K_C)` yields the originally
supplied `S`. -/
theorem C7_specificity_roundtrip (kcat_C K_C K_O S : ℝ)
    (nm : Option String) (mw : ℝ) (h₀ : kcat_C ≠ 0) (h₁ : K_C ≠ 0)
    (h₂ : K_O ≠ 0) (h₃ : S ≠ 0) :
    (RuBisCOParams.make kcat_C K_C K_O S nm mw).kcat_O =
      kcat_C * K_O / (K_C * S)
    ∧ (RuBisCOParams.make kcat_C K_C K_O S nm mw).kcat_C *
        (RuBisCOParams.make kcat_C K_C K_O S nm mw).K_O /
        ((RuBisCOParams.make kcat_C K_C K_O S nm mw).kcat_O *
          (RuBisCOParams.make kcat_C K_C K_O S nm mw).K_C) = S := by
  refine ⟨rfl, ?_⟩
  show kcat_C * K_O / (kcat_C * K_O / (K_C * S) * K_C) = S
  field_simp
  ring

theorem C7_specificity_roundtrip_witness :
    (14.4 : ℝ) ≠ 0 ∧ (172 : ℝ) ≠ 0 ∧ (585 : ℝ) ≠ 0 ∧ (43 : ℝ) ≠ 0
    ∧ (RuBisCOParams.make 14.4 172 585 43 (some "PCC7942")
          default_mw).kcat_C *
        (RuBisCOParams.make 14.4 172 585 43 (some "PCC7942") default_mw).K_O /
        ((RuBisCOParams.make 14.4 172 585 43 (some "PCC7942")
            default_mw).kcat_O *
          (RuBisCOParams.make 14.4 172 585 43 (some "PCC7942")
            default_mw).K_C) = 43 :=
  ⟨by norm_num, by norm_num, by norm_num, by norm_num,
    (C7_specificity_roundtrip 14.4 172 585 43 (some "PCC7942") default_mw
      (by norm_num) (by norm_num) (by norm_num) (by norm_num)).2⟩

/-- Unfolding of `net_vc` on a constructed instance. -/
theorem make_net_vc (kc KC KO S mw : ℝ) (nm : Option String) (c o : ℝ) :
    (RuBisCOParams.make kc KC KO S nm mw).net_vc c o =
      kc / (1 + KC / c + KC * o / (KO * c)) -
        kc * KO / (KC * S) / (1 + KO / o + KO * c / (KC * o)) / 2 := rfl

/-- C6: for every constructed fixed-parameter model with positive `kcat_C`,
`K_C`, `K_O` and `S`, the net carboxylation rate is strictly decreasing in the
O2 concentration at every fixed positive CO2 concentration, and strictly
increasing in the CO2 concentration at every fixed positive O2
concentration. -/
theorem C6_net_vc_monotone (kc KC KO S mw : ℝ) (nm : Option String)
    (hk : 0 < kc) (hC : 0 < KC) (hO : 0 < KO) (hS : 0 < S) :
    (∀ c o o' : ℝ, 0 < c → 0 < o → o < o' →
      (RuBisCOParams.make kc KC KO S nm mw).net_vc c o' <
        (RuBisCOParams.make kc KC KO S nm mw).net_vc c o)
    ∧ (∀ c c' o : ℝ, 0 < o → 0 < c → c < c' →
      (RuBisCOParams.make kc KC KO S nm mw).net_vc c o <
        (RuBisCOParams.make kc KC KO S nm mw).net_vc c' o) := by
  have hb : (0 : ℝ) < kc * KO / (KC * S) := by positivity
  constructor
  · intro c o o' hc ho hlt
    have ho' : (0 : ℝ) < o' := ho.trans hlt
    rw [make_net_vc, make_net_vc]
    have hD : (0 : ℝ) < 1 + KC / c + KC * o / (KO * c) := by positivity
    have hDlt : 1 + KC / c + KC * o / (KO * c) <
        1 + KC / c + KC * o' / (KO * c) := by
      have d1 : KC * o / (KO * c) < KC * o' / (KO * c) :=
        (div_lt_div_iff_of_pos_right (by positivity)).mpr (mul_lt_mul_of_pos_left hlt hC)
      linarith
    have h₁ : kc / (1 + KC / c + KC * o' / (KO * c)) <
        kc / (1 + KC / c + KC * o / (KO * c)) :=
      div_lt_div_of_pos_left hk hD hDlt
    have hE' : (0 : ℝ) < 1 + KO / o' + KO * c / (KC * o') := by positivity
    have hElt : 1 + KO / o' + KO * c / (KC * o') <
        1 + KO / o + KO * c / (KC * o) := by
      have e1 : KO / o' < KO / o := div_lt_div_of_pos_left hO ho hlt
      have e2 : KO * c / (KC * o') < KO * c / (KC * o) :=
        div_lt_div_of_pos_left (by positivity) (by positivity)
          (mul_lt_mul_of_pos_left hlt hC)
      linarith
    have h₂ : kc * KO / (KC * S) / (1 + KO / o + KO * c / (KC * o)) <
        kc * KO / (KC * S) / (1 + KO / o' + KO * c / (KC * o')) :=
      div_lt_div_of_pos_left hb hE' hElt
    linarith
  · intro c c' o ho hc hlt
    have hc' : (0 : ℝ) < c' := hc.trans hlt
    rw [make_net_vc, make_net_vc]
    have hD' : (0 : ℝ) < 1 + KC / c' + KC * o / (KO * c') := by positivity
    have hDlt : 1 + KC / c' + KC * o / (KO * c') <
        1 + KC / c + KC * o / (KO * c) := by
      have d1 : KC / c' < KC / c := div_lt_div_of_pos_left hC hc hlt
      have d2 : KC * o / (KO * c') < KC * o / (KO * c) :=
        div_lt_div_of_pos_left (by positivity) (by positivity)
          (mul_lt_mul_of_pos_left hlt hO)
      linarith
    have h₁ : kc / (1 + KC / c + KC * o / (KO * c)) <
        kc / (1 + KC / c' + KC * o / (KO * c')) :=
      div_lt_div_of_pos_left hk hD' hDlt
    have hE : (0 : ℝ) < 1 + KO / o + KO * c / (KC * o) := by positivity
    have hElt : 1 + KO / o + KO * c / (KC * o) <
        1 + KO / o + KO * c' / (KC * o) := by
      have e1 : KO * c / (KC * o) < KO * c' / (KC * o) :=
        (div_lt_div_iff_of_pos_right (by positivity)).mpr (mul_lt_mul_of_pos_left hlt hO)
      linarith
    have h₂ : kc * KO / (KC * S) / (1 + KO / o + KO * c' / (KC * o)) <
        kc * KO / (KC * S) / (1 + KO / o + KO * c / (KC * o)) :=
      div_lt_div_of_pos_left hb hE hElt
    linarith

theorem C6_net_vc_monotone_witness :
    (0 : ℝ) < 1 ∧ (1 : ℝ) < 2
    ∧ (RuBisCOParams.make 1 1 1 1 none 65000).net_vc 1 2 <
        (RuBisCOParams.make 1 1 1 1 none 65000).net_vc 1 1 :=
  ⟨by norm_num, by norm_num,
    (C6_net_vc_monotone 1 1 1 1 65000 none (by norm_num) (by norm_num)
        (by norm_num) (by norm_num)).1 1 1 2 (by norm_num) (by norm_num)
      (by norm_num)⟩

/-- C10: both constructors default the molar mass per active site to
`65e3` g/mol when the argument is omitted, so every named enzyme constant
carries `mw = 65000` except Rubrum, which supplies `52e3` explicitly. -/
theorem C10_default_mw :
    default_mw = 65000
    ∧ (∀ (kcat_C K_C K_O S : ℝ) (nm : Option String),
        (RuBisCOParams.makeDefault kcat_C K_C K_O S nm).mw = 65000)
    ∧ (∀ (kcat_C K_C K_O S : ArrheniusParam) (rt : Option ℝ)
        (nm : Option String),
        (ArrheniusRubisco.makeDefault kcat_C K_C K_O S rt nm).mw = 65000)
    ∧ PCC7942.mw = 65000 ∧ SPINACH.mw = 65000 ∧ MAIZE.mw = 65000
    ∧ TOBACCO.mw = 65000 ∧ ATHALIANA_T.mw = 65000 ∧ RUBRUM.mw = 52000 := by
  refine ⟨by norm_num [default_mw], fun _ _ _ _ _ => ?_, fun _ _ _ _ _ _ => ?_,
    ?_, ?_, ?_, ?_, ?_, ?_⟩ <;>
    norm_num [RuBisCOParams.makeDefault, RuBisCOParams.make,
      ArrheniusRubisco.makeDefault, ArrheniusRubisco.make, default_mw,
      PCC7942, SPINACH, MAIZE, TOBACCO, ATHALIANA_T, RUBRUM]

end
